import Mathlib

/-!
Verification development for the space-looter local development server
(src/serve.py). The program is a thin wrapper over the Python standard
file server: it changes the working directory to the directory holding
the script, binds a TCP listener on a fixed port, injects two fixed
isolation headers into every response, makes a best-effort attempt to
open a browser, and serves until an interrupt or a fatal error.

The embedding below mirrors the source. Pure request handling is a
function from a filesystem model and a path to a response; the startup
and exception flow is a function from an environment (outcomes of the
bind, of the browser launch, and the exception that ends the serving
loop) to a process outcome together with a trace of observable events.
-/

namespace SpaceLooter

/-- The fixed port constant: `PORT = 8080` in serve.py line 12. -/
def PORT : Nat := 8080

/-- First isolation header sent by `CORSRequestHandler.end_headers`. -/
def coepHeader : String × String :=
  ("Cross-Origin-Embedder-Policy", "require-corp")

/-- Second isolation header sent by `CORSRequestHandler.end_headers`. -/
def coopHeader : String × String :=
  ("Cross-Origin-Opener-Policy", "same-origin")

/-- Result of the base class request processing: status code, buffered
headers, body bytes (bytes as naturals). -/
structure BaseResult where
  status : Nat
  headers : List (String × String)
  body : List Nat
deriving Repr, DecidableEq

/-- An HTTP response as finally sent on the wire. -/
structure Response where
  status : Nat
  headers : List (String × String)
  body : List Nat
deriving Repr, DecidableEq

/-- Embedding of `CORSRequestHandler.end_headers` (serve.py lines 15-18):
given the headers already buffered by the base class, it appends the two
isolation headers and then terminates the header block, so the final
header list is the buffered headers followed by the two fixed ones. -/
def end_headers (sent : List (String × String)) : List (String × String) :=
  sent ++ [coepHeader, coopHeader]

/-- The subclassing in serve.py: the response actually sent is the base
class result with its header block routed through `end_headers`. -/
def handleWith (base : BaseResult) : Response :=
  { status := base.status
    headers := end_headers base.headers
    body := base.body }

/-- Modelled from the spec: the body of the standard not-found response
generated by the underlying file-serving capability (an HTML error page
in the Python standard library, not part of this repository). Its exact
bytes are immaterial to every claim. -/
def notFoundBody : List Nat := []

/-- Modelled from the spec: the underlying `SimpleHTTPRequestHandler`
(Python standard library, not part of this repository). Per the spec it
performs standard path-to-file mapping: a path resolving to an existing
readable file yields a success status with the bytes of the file and
standard headers; any other path yields the standard not-found code.
The filesystem is a function from paths to optional byte contents. -/
def baseHandler (fs : String → Option (List Nat)) (path : String) : BaseResult :=
  match fs path with
  | some bytes =>
    { status := 200
      headers := [("Content-Length", toString bytes.length)]
      body := bytes }
  | none =>
    { status := 404
      headers := [("Content-Length", toString notFoundBody.length)]
      body := notFoundBody }

/-- A full request round trip through `CORSRequestHandler`: base class
processing followed by the overridden `end_headers`. -/
def handleRequest (fs : String → Option (List Nat)) (path : String) : Response :=
  handleWith (baseHandler fs path)

/-- Does `needle` match at the head of `hay`? Helper for the substring
test used by the `OSError` handler. -/
def matchesAt : List Char → List Char → Bool
  | _, [] => true
  | [], _ :: _ => false
  | a :: as, b :: bs => a == b && matchesAt as bs

/-- Does `needle` occur anywhere in `hay`? -/
def hasSubAux (needle : List Char) : List Char → Bool
  | [] => matchesAt [] needle
  | c :: rest => matchesAt (c :: rest) needle || hasSubAux needle rest

/-- Embedding of the Python membership test `needle in hay` on strings:
true when `needle` occurs as a contiguous substring of `hay`. -/
def pyIn (needle hay : String) : Bool :=
  hasSubAux needle.data hay.data

/-- Python exceptions as far as serve.py distinguishes them: the
interrupt, an `OSError` carrying its message string, and any other
exception identified by name. -/
inductive PyExc where
  | keyboardInterrupt
  | osError (msg : String)
  | other (name : String)
deriving Repr, DecidableEq

/-- Observable events of a run, in the order the process performs them. -/
inductive Event where
  | chdir
  | bound
  | printLine (s : String)
  | browserAttempt
  | serveStart
  | socketClosed
deriving Repr, DecidableEq

/-- Process outcome: `sys.exit` with a code, or an exception that
propagates unhandled out of the program. -/
inductive Outcome where
  | exitCode (code : Nat)
  | unhandled (e : PyExc)
deriving Repr, DecidableEq

/-- Environment of one run: the result of constructing the listener
(`socketserver.TCPServer`), the result of the browser launch attempt,
the exception that eventually ends `serve_forever` (it never returns
normally), and the working directory printed in the status lines. -/
structure Env where
  bindResult : Except PyExc Unit
  browserResult : Except PyExc Unit
  serveExc : PyExc
  cwd : String
deriving Repr

/-- Status line 1 of serve.py (line 25). -/
def startLine : String :=
  "🌐 Server starting at http://localhost:" ++ toString PORT

/-- Status line 2 of serve.py (line 26), parametrized by the working
directory reported by `os.getcwd()`. -/
def servingLine (cwd : String) : String :=
  "📁 Serving files from: " ++ cwd

/-- Status line 3 of serve.py (line 27). -/
def playLine : String :=
  "🎮 Open http://localhost:" ++ toString PORT ++ " in your browser to play!"

/-- Status line 4 of serve.py (line 28). -/
def ctrlcLine : String :=
  "⏹️  Press Ctrl+C to stop the server"

/-- Shutdown notice printed by the `KeyboardInterrupt` handler. -/
def stopLine : String := "\n🛑 Server stopped."

/-- Diagnostic printed by the `OSError` handler when the port is in use. -/
def portInUseLine : String :=
  "❌ Port " ++ toString PORT ++
    " is already in use. Try a different port or stop the existing server."

/-- The exact substring the `OSError` handler looks for (line 41). -/
def addrInUse : String := "Address already in use"

/-- Embedding of the inner `try/except` around `webbrowser.open`
(lines 31-34): a bare `except: pass`, so any error is replaced by a
normal return. -/
def tryBrowser : Except PyExc Unit → Except PyExc Unit
  | Except.ok u => Except.ok u
  | Except.error _ => Except.ok ()

/-- Embedding of the two outer `except` clauses (lines 37-45) applied to
the exception `e` that reached them: the interrupt prints the shutdown
notice and exits 0; an `OSError` whose message contains `addrInUse`
prints the diagnostic and exits 1; every other exception is re-raised
(the `OSError` case) or never caught at all, hence unhandled. Returns
the outcome and the events the handler itself contributes. -/
def handleExc (e : PyExc) : Outcome × List Event :=
  match e with
  | PyExc.keyboardInterrupt =>
    (Outcome.exitCode 0, [Event.printLine stopLine])
  | PyExc.osError msg =>
    if pyIn addrInUse msg
    then (Outcome.exitCode 1, [Event.printLine portInUseLine])
    else (Outcome.unhandled (PyExc.osError msg), [])
  | PyExc.other n => (Outcome.unhandled (PyExc.other n), [])

/-- The events of a successful startup, in source order: the directory
change (line 21), the listener bind (line 24), the four status prints
(lines 25-28), the browser attempt (lines 31-34), and entry into
`serve_forever` (line 36). -/
def startupEvents (cwd : String) : List Event :=
  [Event.chdir, Event.bound,
   Event.printLine startLine, Event.printLine (servingLine cwd),
   Event.printLine playLine, Event.printLine ctrlcLine,
   Event.browserAttempt, Event.serveStart]

/-- Embedding of the module-level control flow of serve.py (lines 21-45).
If the bind fails its exception goes straight to the outer handlers (the
`with` block was never entered, so no socket close). If the bind
succeeds, the status lines are printed, the browser attempt runs with
its result swallowed by `tryBrowser`, serving starts, and when the
serving loop raises, the `with` block closes the socket before the outer
handlers run. -/
def runServer (env : Env) : Outcome × List Event :=
  match env.bindResult with
  | Except.error e => ((handleExc e).1, Event.chdir :: (handleExc e).2)
  | Except.ok _ =>
    let _browser := tryBrowser env.browserResult
    ((handleExc env.serveExc).1,
     startupEvents env.cwd ++ Event.socketClosed :: (handleExc env.serveExc).2)

/-- The root directory designator: serve.py always serves the directory
containing the script itself (`os.chdir(os.path.dirname(os.path.abspath(__file__)))`). -/
inductive RootDir where
  | scriptDirectory
  | fixedPath (p : String)
deriving Repr, DecidableEq

/-- Server configuration as bound at startup: host, port, document root.
The empty host string is the all-interfaces bind address of
`socketserver.TCPServer(("", PORT), ...)`. -/
structure Config where
  host : String
  port : Nat
  root : RootDir
deriving Repr, DecidableEq

/-- The configuration serve.py runs with, as a function of the command
line and the process environment. The script reads neither `sys.argv`
nor `os.environ`, so the configuration is the same constant for every
argument vector and environment. -/
def configOf (_argv : List String) (_envVars : List (String × String)) : Config :=
  { host := "", port := PORT, root := RootDir.scriptDirectory }

/-- An example filesystem with a single file for concrete checks. -/
def fsEx : String → Option (List Nat) :=
  fun p => if p = "/index.html" then some [60, 104, 49, 62] else none

/-- Claim C1: every response, whatever the base class produced for the
request (any path, any status), carries a header block equal to the
base headers followed by exactly the two isolation headers with their
static values, and the header injection changes nothing else. -/
theorem c1_isolation_headers_unconditional (base : BaseResult) :
    (handleWith base).headers = base.headers ++ [coepHeader, coopHeader] ∧
    coepHeader = ("Cross-Origin-Embedder-Policy", "require-corp") ∧
    coopHeader = ("Cross-Origin-Opener-Policy", "same-origin") ∧
    (handleWith base).status = base.status ∧
    (handleWith base).body = base.body :=
  ⟨rfl, rfl, rfl, rfl, rfl⟩

/-- Claim C6: a request for a path that resolves to an existing file
gets status 200, a body equal to the bytes of the file, and both
isolation headers with their exact values. -/
theorem c6_existing_file_response (fs : String → Option (List Nat))
    (path : String) (bytes : List Nat) (h : fs path = some bytes) :
    (handleRequest fs path).status = 200 ∧
    (handleRequest fs path).body = bytes ∧
    ("Cross-Origin-Embedder-Policy", "require-corp") ∈ (handleRequest fs path).headers ∧
    ("Cross-Origin-Opener-Policy", "same-origin") ∈ (handleRequest fs path).headers := by
  simp [handleRequest, baseHandler, h, handleWith, end_headers, coepHeader, coopHeader]

/-- Concrete instance of the theorem for claim C6, at the example
filesystem and the path of its one existing file. -/
theorem c6_existing_file_response_witness :
    (handleRequest fsEx "/index.html").status = 200 ∧
    (handleRequest fsEx "/index.html").body = [60, 104, 49, 62] ∧
    ("Cross-Origin-Embedder-Policy", "require-corp") ∈ (handleRequest fsEx "/index.html").headers ∧
    ("Cross-Origin-Opener-Policy", "same-origin") ∈ (handleRequest fsEx "/index.html").headers :=
  c6_existing_file_response fsEx "/index.html" [60, 104, 49, 62] rfl

/-- Claim C7: a request for a path that resolves to no file gets the
standard not-found status 404, and both isolation headers are still
present. -/
theorem c7_not_found_response (fs : String → Option (List Nat))
    (path : String) (h : fs path = none) :
    (handleRequest fs path).status = 404 ∧
    ("Cross-Origin-Embedder-Policy", "require-corp") ∈ (handleRequest fs path).headers ∧
    ("Cross-Origin-Opener-Policy", "same-origin") ∈ (handleRequest fs path).headers := by
  simp [handleRequest, baseHandler, h, handleWith, end_headers, coepHeader, coopHeader]

/-- Concrete instance of the theorem for claim C7, at the example
filesystem and a path that does not exist there. -/
theorem c7_not_found_response_witness :
    (handleRequest fsEx "/does-not-exist.xyz").status = 404 ∧
    ("Cross-Origin-Embedder-Policy", "require-corp") ∈ (handleRequest fsEx "/does-not-exist.xyz").headers ∧
    ("Cross-Origin-Opener-Policy", "same-origin") ∈ (handleRequest fsEx "/does-not-exist.xyz").headers :=
  c7_not_found_response fsEx "/does-not-exist.xyz" rfl

/-- Claim C2: when the bind fails with an `OSError` whose message
contains the address-in-use text, the run exits with code 1 and the
trace contains the diagnostic line, which names the port. -/
theorem c2_port_in_use_exit (msg : String) (b : Except PyExc Unit)
    (s : PyExc) (cwd : String) (h : pyIn addrInUse msg = true) :
    (runServer ⟨Except.error (PyExc.osError msg), b, s, cwd⟩).1 = Outcome.exitCode 1 ∧
    Event.printLine portInUseLine ∈ (runServer ⟨Except.error (PyExc.osError msg), b, s, cwd⟩).2 ∧
    pyIn (toString PORT) portInUseLine = true := by
  refine ⟨?_, ?_, ?_⟩
  · simp [runServer, handleExc, h]
  · simp [runServer, handleExc, h]
  · decide

/-- Concrete instance of the theorem for claim C2, at the message CPython
produces for a bind conflict. -/
theorem c2_port_in_use_exit_witness :
    (runServer ⟨Except.error (PyExc.osError "[Errno 98] Address already in use"),
        Except.ok (), PyExc.keyboardInterrupt, "/srv"⟩).1 = Outcome.exitCode 1 ∧
    Event.printLine portInUseLine ∈
      (runServer ⟨Except.error (PyExc.osError "[Errno 98] Address already in use"),
        Except.ok (), PyExc.keyboardInterrupt, "/srv"⟩).2 ∧
    pyIn (toString PORT) portInUseLine = true :=
  c2_port_in_use_exit "[Errno 98] Address already in use"
    (Except.ok ()) PyExc.keyboardInterrupt "/srv" (by decide)

/-- Claim C3: when the serving loop is ended by the interrupt, the run
exits with code 0, and the trace shows the socket being released (the
exit of the `with` block) before the shutdown notice and the exit. -/
theorem c3_interrupt_clean_exit (b : Except PyExc Unit) (cwd : String) :
    runServer ⟨Except.ok (), b, PyExc.keyboardInterrupt, cwd⟩ =
      (Outcome.exitCode 0,
       startupEvents cwd ++ [Event.socketClosed, Event.printLine stopLine]) := by
  simp [runServer, handleExc, startupEvents]

/-- Claim C4: the result of the browser launch attempt never influences
the outcome or the trace of the run, and the bare `except` swallows
every exception the attempt can raise. -/
theorem c4_browser_errors_swallowed (bind : Except PyExc Unit)
    (b₁ b₂ : Except PyExc Unit) (s : PyExc) (cwd : String) :
    runServer ⟨bind, b₁, s, cwd⟩ = runServer ⟨bind, b₂, s, cwd⟩ ∧
    ∀ e : PyExc, tryBrowser (Except.error e) = Except.ok () := by
  constructor
  · cases bind <;> rfl
  · intro e
    rfl

/-- Claim C5: an exception at bind time, or one ending the serving loop,
that is neither the interrupt nor an `OSError` carrying the
address-in-use text, leaves the program as an unhandled exception: no
exit code, no diagnostic events from the handlers. -/
theorem c5_other_exceptions_unhandled (e : PyExc) (b : Except PyExc Unit)
    (s : PyExc) (cwd : String)
    (hk : e ≠ PyExc.keyboardInterrupt)
    (ho : ∀ msg, e = PyExc.osError msg → pyIn addrInUse msg = false) :
    (runServer ⟨Except.error e, b, s, cwd⟩).1 = Outcome.unhandled e ∧
    (runServer ⟨Except.error e, b, s, cwd⟩).2 = [Event.chdir] ∧
    (runServer ⟨Except.ok (), b, e, cwd⟩).1 = Outcome.unhandled e := by
  cases e with
  | keyboardInterrupt => exact absurd rfl hk
  | osError msg =>
    have hmsg := ho msg rfl
    refine ⟨?_, ?_, ?_⟩ <;> simp [runServer, handleExc, hmsg]
  | other n =>
    refine ⟨?_, ?_, ?_⟩ <;> simp [runServer, handleExc]

/-- Concrete instance of the theorem for claim C5, at a permission
error, an exception the program does not recognize. -/
theorem c5_other_exceptions_unhandled_witness :
    (runServer ⟨Except.error (PyExc.other "PermissionError"),
        Except.ok (), PyExc.keyboardInterrupt, "/srv"⟩).1 =
      Outcome.unhandled (PyExc.other "PermissionError") ∧
    (runServer ⟨Except.error (PyExc.other "PermissionError"),
        Except.ok (), PyExc.keyboardInterrupt, "/srv"⟩).2 = [Event.chdir] ∧
    (runServer ⟨Except.ok (), Except.ok (), PyExc.other "PermissionError", "/srv"⟩).1 =
      Outcome.unhandled (PyExc.other "PermissionError") :=
  c5_other_exceptions_unhandled (PyExc.other "PermissionError")
    (Except.ok ()) PyExc.keyboardInterrupt "/srv"
    (by simp) (by intro msg hmsg; cases hmsg)

/-- Claim C8: for every command line and every process environment the
server binds the constant port 8080 on all interfaces (empty host) and
serves the directory containing the script as document root. -/
theorem c8_fixed_configuration (argv : List String)
    (envVars : List (String × String)) :
    configOf argv envVars =
      { host := "", port := 8080, root := RootDir.scriptDirectory } ∧
    PORT = 8080 :=
  ⟨rfl, rfl⟩

/-- Claim C9: on every run where the bind succeeds, the trace starts
with the directory change, then the bind, then the status prints, then
the browser attempt, then the start of serving, in that order, whatever
happens afterwards. -/
theorem c9_startup_order (b : Except PyExc Unit) (s : PyExc) (cwd : String) :
    ∃ rest,
      (runServer ⟨Except.ok (), b, s, cwd⟩).2 =
        Event.chdir :: Event.bound ::
        Event.printLine startLine :: Event.printLine (servingLine cwd) ::
        Event.printLine playLine :: Event.printLine ctrlcLine ::
        Event.browserAttempt :: Event.serveStart :: rest :=
  ⟨Event.socketClosed :: (handleExc s).2, rfl⟩

/-- Claim C10: for a bind-time `OSError`, the exit-1 diagnostic path is
taken exactly when the message contains the substring
`Address already in use`; any other message leaves the exception
unhandled. -/
theorem c10_substring_gate (msg : String) (b : Except PyExc Unit)
    (s : PyExc) (cwd : String) :
    (runServer ⟨Except.error (PyExc.osError msg), b, s, cwd⟩).1 =
      (if pyIn addrInUse msg
       then Outcome.exitCode 1
       else Outcome.unhandled (PyExc.osError msg)) ∧
    addrInUse = "Address already in use" := by
  constructor
  · by_cases h : pyIn addrInUse msg <;> simp [runServer, handleExc, h]
  · rfl

end SpaceLooter
